import Mathlib

/-!
Verification of the laser-monitor activity-inference and alerting engine.

The Python sources are shallowly embedded: timestamps are integers (seconds),
Python floats are rationals, Python dicts keyed by machine id are association
lists, and the outbound transports (SMTP, Twilio) are abstracted as boolean
send outcomes supplied per call.  Each definition cites the source lines it
embeds (src/laser_monitor.py, src/config/config.py, src/server/app.py).
-/

/-- Python `d.get(k, default)` on a string-keyed dict. -/
def dget {β : Type} (d : List (String × β)) (k : String) (dflt : β) : β :=
  match d.find? (fun p => p.fst = k) with
  | some p => p.snd
  | none => dflt

/-- Python `d[k] = v`: replace the binding if present, else append it. -/
def dset {β : Type} (d : List (String × β)) (k : String) (v : β) : List (String × β) :=
  match d with
  | [] => [(k, v)]
  | p :: rest => if p.fst = k then (k, v) :: rest else p :: dset rest k v

/-- Seven days in seconds; the fixed retention window (`timedelta(days=7)`). -/
def sevenDays : Int := 7 * 24 * 3600

/-- src/laser_monitor.py lines 74-81: one status entry of a machine history.
`details` is an opaque serialized payload (a dict in Python). -/
structure MachineStatusEntry where
  timestamp : Int
  status : String
  class_name : String
  confidence : ℚ
  details : String
deriving DecidableEq, Repr

/-- src/laser_monitor.py lines 84-90: per-machine status history. -/
structure MachineHistory where
  machine_id : String
  entries : List MachineStatusEntry
  last_active_time : Option Int
  last_inactive_time : Option Int
deriving DecidableEq, Repr

/-- A fresh history for a machine id (dataclass defaults, lines 84-90). -/
def MachineHistory.empty (m : String) : MachineHistory :=
  { machine_id := m, entries := [], last_active_time := none, last_inactive_time := none }

/-- src/laser_monitor.py lines 112-122 `cleanup_old_entries`: drop entries whose
timestamp is more than seven days before the cutoff (here always called with
the new entry's timestamp, line 110). -/
def MachineHistory.cleanup_old_entries (h : MachineHistory) (cutoff_time : Int) : MachineHistory :=
  { h with entries := h.entries.filter (fun e => cutoff_time - sevenDays ≤ e.timestamp) }

/-- src/laser_monitor.py lines 92-110 `add_entry`: append an entry stamped with
the current wall-clock time (`datetime.now()`, passed here as `now`), update
`last_active_time`/`last_inactive_time`, then prune relative to the new
entry's own timestamp. -/
def MachineHistory.add_entry (h : MachineHistory) (now : Int) (status class_name : String)
    (confidence : ℚ) (details : String) : MachineHistory :=
  let entry : MachineStatusEntry :=
    { timestamp := now, status := status, class_name := class_name,
      confidence := confidence, details := details }
  let h1 := { h with entries := h.entries ++ [entry] }
  let h2 :=
    if status = "active" then { h1 with last_active_time := some now }
    else { h1 with last_inactive_time := some now }
  h2.cleanup_old_entries now

/-- src/laser_monitor.py lines 124-130 `get_inactive_duration`: `none` if never
active, zero if currently active, otherwise elapsed seconds since last active.
`now` stands for the `datetime.now()` read at the call site. -/
def MachineHistory.get_inactive_duration (h : MachineHistory) (now : Int) : Option Int :=
  match h.last_active_time with
  | none => none
  | some la =>
    match h.last_inactive_time with
    | none => some 0
    | some li => if li < la then some 0 else some (now - la)

/-- src/laser_monitor.py lines 132-137 `is_inactive_too_long`: true iff the
inactive duration exceeds `threshold_minutes * 60` seconds. -/
def MachineHistory.is_inactive_too_long (h : MachineHistory) (now : Int)
    (threshold_minutes : Int) : Bool :=
  match h.get_inactive_duration now with
  | none => false
  | some d => threshold_minutes * 60 < d

/-- src/laser_monitor.py lines 139-162 `to_dict`, entry part: serialization
keeps only entries from the last seven days relative to serialization-time
`datetime.now()`.  `datetime.isoformat`/`fromisoformat` round-trip exactly
(microsecond precision), so a serialized entry is represented by the entry
itself. -/
def MachineHistory.to_dict_entries (h : MachineHistory) (now : Int) : List MachineStatusEntry :=
  h.entries.filter (fun e => now - sevenDays ≤ e.timestamp)

/-- src/laser_monitor.py lines 1581-1592 (`load_machine_history`): when the
ledger file is read back, only entries from the last seven days relative to
load-time `datetime.now()` are reconstructed, each with timestamp, status,
class_name, confidence and details taken from the serialized form. -/
def load_history_entries (serialized : List MachineStatusEntry) (now : Int) :
    List MachineStatusEntry :=
  serialized.filter (fun e => now - sevenDays ≤ e.timestamp)

/-- One `add_entry` request: the wall-clock time at the append together with
the appended fields. -/
structure AddRequest where
  time : Int
  status : String
  class_name : String
  confidence : ℚ
  details : String
deriving DecidableEq, Repr

/-- Fold a list of `add_entry` calls over a history. -/
def applyAdds (h : MachineHistory) (us : List AddRequest) : MachineHistory :=
  us.foldl (fun acc u => acc.add_entry u.time u.status u.class_name u.confidence u.details) h

/-- Timestamp of the most recent request in the list whose status is `"active"`
(statement vocabulary for the ledger invariant). -/
def lastActiveReqTime (us : List AddRequest) : Option Int :=
  (us.filter (fun u => u.status = "active")).getLast?.map (fun u => u.time)

/-- Timestamp of the most recent request whose status is not `"active"`. -/
def lastNonActiveReqTime (us : List AddRequest) : Option Int :=
  (us.filter (fun u => ¬ u.status = "active")).getLast?.map (fun u => u.time)

/-- Channel-level alert configuration consumed by the managers: the channel
enable flag (`alerts.email_alerts` / `alerts.sms_alerts`, src/config/config.py
lines 82 and 93) and the machine allow-list (`alerts.alert_machines`,
line 101). -/
structure ChannelCfg where
  enabled : Bool
  alert_machines : List String
deriving DecidableEq, Repr

/-- In-memory state of one alert manager (src/laser_monitor.py lines 171-175
for email, 458-462 for SMS): `last_alert_times`, the per-inactive-period
sent flag, and the last observed status per machine.  Email and SMS managers
hold structurally identical state and run textually identical logic, so one
embedding serves both channels. -/
structure AlertState where
  last_alert_times : List (String × Int)
  alert_sent_for_current_inactive_period : List (String × Bool)
  last_machine_status : List (String × String)
deriving DecidableEq, Repr

/-- Fresh alert-manager state (empty dicts, constructor lines 171-175/458-462). -/
def AlertState.init : AlertState :=
  { last_alert_times := [], alert_sent_for_current_inactive_period := [],
    last_machine_status := [] }

/-- src/laser_monitor.py lines 246-258 (email) and 543-555 (SMS)
`should_send_alert`: channel enabled, machine on the allow-list, and no alert
sent yet for the current inactive period. -/
def should_send_alert (cfg : ChannelCfg) (st : AlertState) (machine_id : String) : Bool :=
  if ¬ cfg.enabled then false
  else if ¬ machine_id ∈ cfg.alert_machines then false
  else if dget st.alert_sent_for_current_inactive_period machine_id false then false
  else true

/-- src/laser_monitor.py lines 395-404 (email) and 660-669 (SMS)
`should_send_alert_for_active`: enabled, allow-listed, and an inactive alert
was sent for the current period. -/
def should_send_alert_for_active (cfg : ChannelCfg) (st : AlertState)
    (machine_id : String) : Bool :=
  if ¬ cfg.enabled then false
  else if ¬ machine_id ∈ cfg.alert_machines then false
  else dget st.alert_sent_for_current_inactive_period machine_id false

/-- src/laser_monitor.py lines 260-301 (email) and 557-602 (SMS)
`send_inactive_alert`.  The transport (SMTP session / Twilio fan-out, where
SMS success means at least one recipient succeeded) is abstracted by `sendOk`;
missing credentials and raised exceptions are `sendOk = false`.  On success
the alert time is recorded and the period flag set - unconditionally, even
when `isTest` is true (lines 292-294 and 590-592).  Returns (result, state). -/
def send_inactive_alert (cfg : ChannelCfg) (st : AlertState) (machine_id : String)
    (isTest : Bool) (now : Int) (sendOk : Bool) : Bool × AlertState :=
  if ¬ isTest ∧ ¬ should_send_alert cfg st machine_id then (false, st)
  else if sendOk then
    (true,
      { st with
        last_alert_times := dset st.last_alert_times machine_id now,
        alert_sent_for_current_inactive_period :=
          dset st.alert_sent_for_current_inactive_period machine_id true })
  else (false, st)

/-- src/laser_monitor.py lines 352-393 (email) and 613-658 (SMS)
`send_active_alert`: gated by `should_send_alert_for_active` unless testing;
on a successful non-test send the period flag is cleared (lines 385-386 and
647-648). -/
def send_active_alert (cfg : ChannelCfg) (st : AlertState) (machine_id : String)
    (isTest : Bool) (sendOk : Bool) : Bool × AlertState :=
  if ¬ isTest ∧ ¬ should_send_alert_for_active cfg st machine_id then (false, st)
  else if sendOk then
    (true,
      if isTest then st
      else
        { st with
          alert_sent_for_current_inactive_period :=
            dset st.alert_sent_for_current_inactive_period machine_id false })
  else (false, st)

/-- Result of one `update_machine_status` call: the new manager state, whether
an active-again send was attempted, and the inactive-duration minutes carried
by that attempt (0 when no attempt was made). -/
structure UpdateResult where
  state : AlertState
  activeAttempted : Bool
  carriedMinutes : ℚ
deriving DecidableEq, Repr

/-- src/laser_monitor.py lines 222-244 (email) and 519-541 (SMS)
`update_machine_status`: record the new status; on an inactive-to-active
transition, if an inactive alert was sent for the period, attempt an
active-again send carrying `machine_history.get_inactive_duration()` in
minutes (the orchestrator always passes a history whose `last_active_time`
was just set, so the duration option is `some`; `0` stands in for the
unreachable `none` case that would raise in Python), then clear the period
flag regardless of the send outcome. -/
def update_machine_status (cfg : ChannelCfg) (st : AlertState) (machine_id : String)
    (current_status : String) (hist : MachineHistory) (now : Int)
    (activeOk : Bool) : UpdateResult :=
  let previous := dget st.last_machine_status machine_id ""
  let st1 := { st with last_machine_status := dset st.last_machine_status machine_id current_status }
  if previous = "inactive" ∧ current_status = "active" then
    if dget st1.alert_sent_for_current_inactive_period machine_id false then
      let durMinutes : ℚ :=
        match hist.get_inactive_duration now with
        | some d => (d : ℚ) / 60
        | none => 0
      let st2 := (send_active_alert cfg st1 machine_id false activeOk).2
      let st3 :=
        { st2 with
          alert_sent_for_current_inactive_period :=
            dset st2.alert_sent_for_current_inactive_period machine_id false }
      { state := st3, activeAttempted := true, carriedMinutes := durMinutes }
    else
      { state :=
          { st1 with
            alert_sent_for_current_inactive_period :=
              dset st1.alert_sent_for_current_inactive_period machine_id false },
        activeAttempted := false, carriedMinutes := 0 }
  else
    { state := st1, activeAttempted := false, carriedMinutes := 0 }

/-- src/laser_monitor.py lines 589-595: the SMS channel counts per-recipient
sends and succeeds iff at least one recipient succeeded. -/
def smsFanOutSuccess (recipientOutcomes : List Bool) : Bool :=
  recipientOutcomes.any (fun b => b)

/-- One history entry as consumed by the dashboard uptime computation
(src/server/app.py lines 163-170): parsed timestamp and status. -/
structure UEntry where
  ts : Int
  status : String
deriving DecidableEq, Repr

/-- Stable insertion used to embed Python's stable `list.sort(key=timestamp)`
(src/server/app.py line 175): a new element goes after existing elements with
an equal timestamp. -/
def insertByTs (e : UEntry) : List UEntry → List UEntry
  | [] => [e]
  | x :: xs => if e.ts < x.ts then e :: x :: xs else x :: insertByTs e xs

/-- Stable sort by timestamp, inserting elements in their original order. -/
def sortByTs (l : List UEntry) : List UEntry :=
  l.foldl (fun acc e => insertByTs e acc) []

/-- src/server/app.py lines 178-188, the accumulation loop of
`calculate_machine_uptime`: walk the sorted entries carrying
(`total_active_seconds`, `current_status`, `last_timestamp`). -/
def uptimeLoop (acc : ℚ) (cur : String) (last : Int) : List UEntry → ℚ × String × Int
  | [] => (acc, cur, last)
  | x :: xs =>
    uptimeLoop (if cur = "active" then acc + ((x.ts - last : Int) : ℚ) else acc) x.status x.ts xs

/-- src/server/app.py lines 157-199 `calculate_machine_uptime`: filter entries
to the inclusive window, sort by timestamp, accumulate seconds spent in
status `"active"` (the stretch before the first in-window entry counts under
that entry's own status, the tail until `end_time` under the last entry's
status), and return `100 * active / window`; `0.0` for an empty entry list,
an empty filtered window, or a zero-length period. -/
def calculate_machine_uptime (entries : List UEntry) (start_time end_time : Int) : ℚ :=
  if entries = [] then 0
  else
    let period_entries := entries.filter (fun e => start_time ≤ e.ts ∧ e.ts ≤ end_time)
    match sortByTs period_entries with
    | [] => 0
    | first :: rest =>
      let r := uptimeLoop 0 first.status start_time (first :: rest)
      let total_active : ℚ := if r.2.1 = "active" then r.1 + ((end_time - r.2.2 : Int) : ℚ) else r.1
      let total_period : ℚ := ((end_time - start_time : Int) : ℚ)
      if total_period = 0 then 0 else total_active / total_period * 100

/-- Sum over consecutive pairs of the seconds following an `"active"` entry
(specification vocabulary for the uptime decomposition, spec section 4.3). -/
def pairActiveSeconds : List UEntry → ℚ
  | [] => 0
  | [_] => 0
  | x :: y :: xs => (if x.status = "active" then ((y.ts - x.ts : Int) : ℚ) else 0) + pairActiveSeconds (y :: xs)

/-- Modelled from the spec (section 4.3): active seconds inside the window are
the head segment attributed to the first entry's own status, plus every
consecutive-pair segment whose left entry is active, plus the tail segment
attributed to the last entry's status. -/
def specActiveSeconds (sorted : List UEntry) (start_time end_time : Int) : ℚ :=
  match sorted with
  | [] => 0
  | first :: rest =>
    (if first.status = "active" then ((first.ts - start_time : Int) : ℚ) else 0)
    + pairActiveSeconds (first :: rest)
    + (match (first :: rest).getLast? with
       | some lastE => if lastE.status = "active" then ((end_time - lastE.ts : Int) : ℚ) else 0
       | none => 0)

/-- src/laser_monitor.py lines 44-57 `DetectionResult`, restricted to the
fields the claims mention (bbox in pixel coordinates). -/
structure DetectionResult where
  confidence : ℚ
  bbox : Int × Int × Int × Int
  class_name : String
  laser_status : String
deriving DecidableEq, Repr

/-- src/laser_monitor.py lines 936-938: clamp a pixel bbox to the frame. -/
def clampBbox (w h x1 y1 x2 y2 : Int) : Int × Int × Int × Int :=
  (max 0 x1, max 0 y1, min w x2, min h y2)

/-- src/laser_monitor.py lines 931-967, body of the per-region loop of
`_detect_with_fixed_bboxes`: clamp, skip zero/negative-area boxes with a
warning (`continue`, line 945, reached before the forced-detection check),
otherwise take the `_analyze_roi` result (abstracted as `analysis`, `none`
when the analysis raised) and, when that is `none` and `force`
(`bbox_force_detection`) is set, fabricate the baseline detection of lines
955-962. -/
def processRegion (force : Bool) (w h x1 y1 x2 y2 : Int)
    (analysis : Option DetectionResult) : Option DetectionResult :=
  let c := clampBbox w h x1 y1 x2 y2
  if c.2.2.1 ≤ c.1 ∨ c.2.2.2 ≤ c.2.1 then none
  else
    match analysis with
    | some d => some d
    | none =>
      if force then
        some { confidence := 1, bbox := c, class_name := "region", laser_status := "normal" }
      else none

/-- One region request of `_detect_with_fixed_bboxes`: its raw pixel bbox
(after the normalized-to-pixel conversion of line 933) together with the
abstracted `_analyze_roi` outcome for its ROI. -/
structure RegionReq where
  x1 : Int
  y1 : Int
  x2 : Int
  y2 : Int
  analysis : Option DetectionResult
deriving DecidableEq, Repr

/-- src/laser_monitor.py lines 923-971: the cycle's detection list is the
regions processed in order, dropping the ones that produced nothing. -/
def detect_with_fixed_bboxes (force : Bool) (w h : Int) (regions : List RegionReq) :
    List DetectionResult :=
  regions.filterMap (fun r => processRegion force w h r.x1 r.y1 r.x2 r.y2 r.analysis)

/-- Output of a composite classification: class name, confidence, status. -/
structure ClassifyResult where
  class_name : String
  confidence : ℚ
  laser_status : String
deriving DecidableEq, Repr

/-- src/laser_monitor.py lines 1033/1153: the brightness factor
`0.7 + 0.6 * min(1, mean_brightness / 200)`. -/
def brightnessFactor (mean_brightness : ℚ) : ℚ :=
  7/10 + 6/10 * min 1 (mean_brightness / 200)

/-- The shared composite decision and confidence formula, instantiated by both
strategies: src/laser_monitor.py lines 1036-1070 (brightness, with
`topRatio`/`midRatio` the bright-pixel ratios and both thresholds equal to
`brightness_active_ratio`) and lines 1157-1192 (indicator, with the red and
orange mask ratios and `red_activation_ratio` / the resolved orange
threshold). -/
def compositeClassify (topRatio midRatio topThreshold midThreshold mean_brightness : ℚ) :
    ClassifyResult :=
  let topActive := topThreshold ≤ topRatio
  let midActive := midThreshold ≤ midRatio
  let bf := brightnessFactor mean_brightness
  if topActive ∧ midActive then
    let topExcess := max 0 (topRatio - topThreshold)
    let midExcess := max 0 (midRatio - midThreshold)
    let topConf := 1/2 + min (1/2) (topExcess / (2 * topThreshold))
    let midConf := 1/2 + min (1/2) (midExcess / (2 * midThreshold))
    let base := (topConf + midConf) / 2
    { class_name := "machine_active", confidence := min 1 (base * bf), laser_status := "active" }
  else if topActive then
    let topExcess := max 0 (topRatio - topThreshold)
    let base := 1/2 + min (1/2) (topExcess / (2 * topThreshold))
    { class_name := "machine_working_only", confidence := min 1 (base * bf),
      laser_status := "inactive" }
  else if midActive then
    let midExcess := max 0 (midRatio - midThreshold)
    let base := 1/2 + min (1/2) (midExcess / (2 * midThreshold))
    { class_name := "machine_on_only", confidence := min 1 (base * bf),
      laser_status := "inactive" }
  else
    let topDeficit := max 0 (topThreshold - topRatio)
    let midDeficit := max 0 (midThreshold - midRatio)
    let topConf := max (1/10) (1/2 - topDeficit / topThreshold)
    let midConf := max (1/10) (1/2 - midDeficit / midThreshold)
    let base := min topConf midConf
    { class_name := "machine_off", confidence := min 1 (max (1/10) (base * (2 - bf))),
      laser_status := "inactive" }

/-- src/laser_monitor.py lines 1131-1138: the orange activation threshold is
`orange_activation_ratio` when set, else the legacy `green_activation_ratio`
when set, else `0.02`. -/
def resolveOrangeThreshold (orangeRatioCfg greenRatioCfg : Option ℚ) : ℚ :=
  match orangeRatioCfg with
  | some r => r
  | none =>
    match greenRatioCfg with
    | some r => r
    | none => 2/100

/-- Field names declared by the `DetectionConfig` dataclass
(src/config/config.py lines 32-70). -/
def detectionConfigFieldNames : List String :=
  ["confidence_threshold", "nms_threshold", "max_detections", "mode",
   "laser_keywords", "visual_prompt_path", "refer_image", "visual_prompt_bbox",
   "visual_prompts", "bbox_force_detection", "indicator_mode",
   "red_activation_ratio", "orange_activation_ratio",
   "red_hue_low_max", "red_hue_high_min", "orange_hue_min", "orange_hue_max",
   "indicator_min_saturation", "indicator_min_value", "indicator_blur_ksize",
   "use_brightness_threshold", "brightness_threshold_ratios"]

/-- A `DetectionConfig` instance as seen by the brightness branch: the declared
per-region, per-section ratio table (src/config/config.py line 70) plus any
numeric attributes assigned dynamically on the instance (Python dataclasses
accept new attributes; no code in this repository assigns
`brightness_threshold_ratio` or `brightness_active_ratio`). -/
structure DetectionCfg where
  brightness_threshold_ratios : List (List ℚ)
  dynamicAttrs : List (String × ℚ)
deriving DecidableEq, Repr

/-- The default `DetectionConfig()` of src/config/config.py: the ratio table
defaults to `[[1.7, 2.2]]` and no dynamic attributes exist. -/
def defaultDetectionCfg : DetectionCfg :=
  { brightness_threshold_ratios := [[17/10, 22/10]], dynamicAttrs := [] }

/-- Python attribute lookup for a numeric attribute on a `DetectionConfig`
instance: a declared field resolves to its value, a dynamically assigned
attribute to the assigned value, anything else raises `AttributeError`
(`none`).  The two names the brightness branch reads are not declared fields,
so they resolve only through `dynamicAttrs`. -/
def detectionGetAttr (cfg : DetectionCfg) (name : String) : Option ℚ :=
  if name ∈ detectionConfigFieldNames then none
  else (cfg.dynamicAttrs.find? (fun p => p.fst = name)).map (fun p => p.snd)

/-- src/laser_monitor.py lines 995-1070, the brightness-threshold branch of
`_analyze_roi` up to its classification: it reads
`self.config.detection.brightness_threshold_ratio` (lines 1010-1011, the same
single attribute for the top and the middle threshold, with no per-region
indexing) and `self.config.detection.brightness_active_ratio` (lines
1021-1065).  An `AttributeError` propagates to the `except` of line 1280 and
the region yields `none`.  `topPixelRatio`/`midPixelRatio` abstract the
bright-pixel fractions computed against `bottom * ratio`. -/
def analyzeRoiBrightness (cfg : DetectionCfg)
    (topPixelRatio : ℚ → ℚ) (midPixelRatio : ℚ → ℚ)
    (bottom_brightness mean_brightness : ℚ) : Option (ℚ × ℚ × ClassifyResult) :=
  match detectionGetAttr cfg "brightness_threshold_ratio" with
  | none => none
  | some ratio =>
    match detectionGetAttr cfg "brightness_active_ratio" with
    | none => none
    | some activeRatio =>
      let top_threshold := bottom_brightness * ratio
      let mid_threshold := bottom_brightness * ratio
      some (top_threshold, mid_threshold,
        compositeClassify (topPixelRatio top_threshold) (midPixelRatio mid_threshold)
          activeRatio activeRatio mean_brightness)

/-- One monitoring cycle for a single machine: the cycle's wall-clock time,
the status derived from its detection (src/laser_monitor.py line 1642), and
the outcomes the transports would produce if an inactive alert
(`sendOk`) or an active-again alert (`activeOk`) is attempted this cycle. -/
structure CycleInput where
  time : Int
  status : String
  sendOk : Bool
  activeOk : Bool
deriving DecidableEq, Repr

/-- Observable events of one cycle: its time and status, whether an inactive
alert was successfully sent, and whether an active-again send was attempted
(with the minutes value it carried). -/
structure CycleOutput where
  time : Int
  status : String
  inactiveSent : Bool
  activeAttempted : Bool
  carriedMinutes : ℚ
deriving DecidableEq, Repr

/-- One iteration of `run_single_cycle` (src/laser_monitor.py lines 1705-1737)
projected to one machine and one alert channel: `update_machine_status`
appends the history entry (line 1644) and notifies the alert manager
(lines 1657-1658), then `check_inactive_alerts` (lines 1662-1703) sends an
inactive alert when the history reports the machine inactive beyond the
threshold and the channel is enabled for this allow-listed machine
(lines 1666, 1680-1685).  The entry's class/confidence/details do not feed
the alert logic and are filled with placeholders. -/
def stepCycle (cfg : ChannelCfg) (threshold_minutes : Int) (m : String)
    (s : AlertState × MachineHistory) (c : CycleInput) :
    (AlertState × MachineHistory) × CycleOutput :=
  let hist1 := s.2.add_entry c.time c.status "" 0 ""
  let u := update_machine_status cfg s.1 m c.status hist1 c.time c.activeOk
  let attemptInactive :=
    hist1.is_inactive_too_long c.time threshold_minutes
      ∧ cfg.enabled ∧ m ∈ cfg.alert_machines
  let r :=
    if attemptInactive then send_inactive_alert cfg u.state m false c.time c.sendOk
    else (false, u.state)
  ((r.2, hist1),
   { time := c.time, status := c.status, inactiveSent := r.1,
     activeAttempted := u.activeAttempted, carriedMinutes := u.carriedMinutes })

/-- Run a list of cycles from a state, collecting the per-cycle outputs. -/
def runCycles (cfg : ChannelCfg) (threshold_minutes : Int) (m : String) :
    (AlertState × MachineHistory) → List CycleInput →
    (AlertState × MachineHistory) × List CycleOutput
  | s, [] => (s, [])
  | s, c :: cs =>
    let r := stepCycle cfg threshold_minutes m s c
    let rest := runCycles cfg threshold_minutes m r.1 cs
    (rest.1, r.2 :: rest.2)

/-- Fresh per-process state for one machine: empty alert-manager dicts and a
lazily created empty history (src/laser_monitor.py lines 1619-1620, 1638-1639
with no persisted ledger). -/
def initCycleState (m : String) : AlertState × MachineHistory :=
  (AlertState.init, MachineHistory.empty m)

/-- Cycle times are strictly increasing (`datetime.now()` across successive
cycles of one process). -/
def timesIncreasing (cs : List CycleInput) : Prop :=
  cs.Chain' (fun c d => c.time < d.time)

/-- Number of successfully sent inactive alerts among a list of cycles. -/
def countInactiveSent (outs : List CycleOutput) : Nat :=
  (outs.filter (fun o => o.inactiveSent)).length

/-- Number of successful inactive sends inside the maximal all-inactive suffix
of the outputs: the current inactive run of the machine. -/
def curRunSentCount (outs : List CycleOutput) : Nat :=
  countInactiveSent (outs.reverse.takeWhile (fun o => o.status = "inactive"))

lemma dget_dset_self {β : Type} (d : List (String × β)) (k : String) (v : β) (dflt : β) :
    dget (dset d k v) k dflt = v := by
  induction d with
  | nil => simp [dget, dset]
  | cons p rest ih =>
    by_cases h : p.fst = k
    · simp [dset, h, dget]
    · simp [dset, h, dget, List.find?]
      simpa [dget] using ih

lemma filter_length_le_c {α : Type} (p : α → Bool) (l : List α) :
    (l.filter p).length ≤ l.length := List.length_filter_le p l

/-- C9: reloading the serialized ledger reproduces exactly the entries inside
the seven-day retention window at load time, each with timestamp, status,
class name, confidence and details intact (timestamps are exact through the
ISO-8601 round trip, hence preserved to well under one second), provided the
load happens no earlier than the serialization. -/
theorem ledger_round_trip (h : MachineHistory) (serNow loadNow : Int)
    (hle : serNow ≤ loadNow) :
    load_history_entries (h.to_dict_entries serNow) loadNow
      = h.entries.filter (fun e => loadNow - sevenDays ≤ e.timestamp) := by
  unfold load_history_entries MachineHistory.to_dict_entries
  rw [List.filter_filter]
  apply List.filter_congr
  intro e _
  by_cases hw : loadNow - sevenDays ≤ e.timestamp
  · have : serNow - sevenDays ≤ e.timestamp := by omega
    simp [hw, this]
  · simp [hw]

/-- Witness for the round trip: serialization at time 0 and load at time 10
of a three-entry history keep exactly the two entries inside the load-time
window. -/
theorem ledger_round_trip_witness :
    (0 : Int) ≤ 10
    ∧ load_history_entries
        (MachineHistory.to_dict_entries
          { machine_id := "machine_0",
            entries := [⟨-sevenDays, "inactive", "machine_off", 0, ""⟩,
                        ⟨10 - sevenDays, "active", "machine_active", 1, ""⟩,
                        ⟨5, "inactive", "machine_off", 1/2, "d"⟩],
            last_active_time := some (10 - sevenDays),
            last_inactive_time := some 5 } 0) 10
      = [⟨10 - sevenDays, "active", "machine_active", 1, ""⟩,
         ⟨5, "inactive", "machine_off", 1/2, "d"⟩] := by
  refine ⟨by norm_num, ?_⟩
  rw [ledger_round_trip _ _ _ (by norm_num)]
  simp [sevenDays]

/-- C10: the non-test gating decision is exactly the conjunction of the
channel enable flag, allow-list membership, and the negated per-episode flag;
two manager states agreeing on that flag decide identically, whatever their
`last_alert_times` and `last_machine_status` hold - there is no time-based
cooldown.  The email and SMS managers run this same definition. -/
theorem should_send_alert_only_flag (cfg : ChannelCfg) (st st' : AlertState) (m : String) :
    should_send_alert cfg st m
      = (cfg.enabled && decide (m ∈ cfg.alert_machines)
          && ! dget st.alert_sent_for_current_inactive_period m false)
    ∧ (dget st.alert_sent_for_current_inactive_period m false
        = dget st'.alert_sent_for_current_inactive_period m false →
      should_send_alert cfg st m = should_send_alert cfg st' m) := by
  constructor
  · unfold should_send_alert
    by_cases he : cfg.enabled
    · by_cases hm : m ∈ cfg.alert_machines
      · by_cases hf : dget st.alert_sent_for_current_inactive_period m false
        · simp [he, hm, hf]
        · simp [he, hm, hf]
      · simp [he, hm]
    · simp [he]
  · intro hagree
    unfold should_send_alert
    rw [hagree]

/-- Witness for C10: two states with different recorded alert times but the
same flag produce the same decision. -/
theorem should_send_alert_only_flag_witness :
    dget (AlertState.init.alert_sent_for_current_inactive_period) "machine_0" false
      = dget ({ last_alert_times := [("machine_0", 999)],
                alert_sent_for_current_inactive_period := [],
                last_machine_status := [("machine_0", "inactive")] }
                : AlertState).alert_sent_for_current_inactive_period "machine_0" false
    ∧ should_send_alert ⟨true, ["machine_0"]⟩ AlertState.init "machine_0"
      = should_send_alert ⟨true, ["machine_0"]⟩
          { last_alert_times := [("machine_0", 999)],
            alert_sent_for_current_inactive_period := [],
            last_machine_status := [("machine_0", "inactive")] } "machine_0" :=
  ⟨by decide,
   (should_send_alert_only_flag ⟨true, ["machine_0"]⟩ AlertState.init
      { last_alert_times := [("machine_0", 999)],
        alert_sent_for_current_inactive_period := [],
        last_machine_status := [("machine_0", "inactive")] } "machine_0").2 (by decide)⟩

/-- C2 counterexample: a successful inactive-alert test send does mutate the
manager state - from a fresh state, `send_inactive_alert` with the test flag
set and a succeeding transport records the alert time and sets the
per-episode flag (src/laser_monitor.py lines 292-294; the SMS copy at lines
590-592 runs the same unguarded update), so the state after the call differs
from the state before. -/
theorem test_send_mutates_state :
    (send_inactive_alert ⟨true, ["machine_0"]⟩ AlertState.init "machine_0" true 5 true).2
      ≠ AlertState.init
    ∧ dget (send_inactive_alert ⟨true, ["machine_0"]⟩ AlertState.init "machine_0"
        true 5 true).2.alert_sent_for_current_inactive_period "machine_0" false = true := by
  constructor
  · decide
  · decide

/-- C2 amended: a test send bypasses gating; when the transport fails the
manager state is exactly unchanged, but a successful test send records
`last_alert_times[m]` and sets the per-episode flag, on both channels (the
SMS transport outcome is the fan-out disjunction `smsFanOutSuccess`);
`last_machine_status` is never touched by `send_inactive_alert`. -/
theorem test_send_amended (cfg : ChannelCfg) (st : AlertState) (m : String)
    (now : Int) (ok : Bool) (recipients : List Bool) :
    send_inactive_alert cfg st m true now ok
      = (ok,
         if ok then
           { st with
             last_alert_times := dset st.last_alert_times m now,
             alert_sent_for_current_inactive_period :=
               dset st.alert_sent_for_current_inactive_period m true }
         else st)
    ∧ (send_inactive_alert cfg st m true now ok).2.last_machine_status = st.last_machine_status
    ∧ send_inactive_alert cfg st m true now (smsFanOutSuccess recipients)
        = (smsFanOutSuccess recipients,
           if smsFanOutSuccess recipients then
             { st with
               last_alert_times := dset st.last_alert_times m now,
               alert_sent_for_current_inactive_period :=
                 dset st.alert_sent_for_current_inactive_period m true }
           else st) := by
  have key : ∀ b : Bool, send_inactive_alert cfg st m true now b
      = (b,
         if b then
           { st with
             last_alert_times := dset st.last_alert_times m now,
             alert_sent_for_current_inactive_period :=
               dset st.alert_sent_for_current_inactive_period m true }
         else st) := by
    intro b
    unfold send_inactive_alert
    cases b <;> simp
  refine ⟨key ok, ?_, key (smsFanOutSuccess recipients)⟩
  rw [key ok]
  cases ok <;> simp

/-- C5 counterexample: a region whose bbox clamps to zero area is dropped by
the `continue` of src/laser_monitor.py line 945 before the forced-detection
check of line 953 is ever reached, so with `bbox_force_detection = True` it
still contributes no detection - the claimed neutral baseline is not
substituted.  Concrete input: 100x100 frame, pixel bbox (50,50,50,50). -/
theorem bbox_zero_area_not_forced :
    processRegion true 100 100 50 50 50 50 none = none := by decide

/-- C5 amended: a region whose clamped bbox has zero or negative area is
always skipped and contributes nothing to the cycle's detection list, whether
or not `bbox_force_detection` is set (the warning log is not modelled); the
neutral baseline (confidence 1, class `"region"`, status `"normal"`) is
substituted only for a positive-area region whose ROI analysis produced
nothing while the forced-detection policy is enabled, and a positive-area
region with an analysis result contributes that result. -/
theorem bbox_degenerate_region_amended :
    (∀ (force : Bool) (w h x1 y1 x2 y2 : Int) (analysis : Option DetectionResult),
      (min w x2 ≤ max 0 x1 ∨ min h y2 ≤ max 0 y1) →
      processRegion force w h x1 y1 x2 y2 analysis = none)
    ∧ (∀ (force : Bool) (w h : Int) (pre post : List RegionReq) (r : RegionReq),
      (min w r.x2 ≤ max 0 r.x1 ∨ min h r.y2 ≤ max 0 r.y1) →
      detect_with_fixed_bboxes force w h (pre ++ r :: post)
        = detect_with_fixed_bboxes force w h (pre ++ post))
    ∧ (∀ (w h x1 y1 x2 y2 : Int),
      ¬ (min w x2 ≤ max 0 x1 ∨ min h y2 ≤ max 0 y1) →
      processRegion true w h x1 y1 x2 y2 none
        = some { confidence := 1, bbox := clampBbox w h x1 y1 x2 y2,
                 class_name := "region", laser_status := "normal" })
    ∧ (∀ (w h x1 y1 x2 y2 : Int),
      processRegion false w h x1 y1 x2 y2 none = none)
    ∧ (∀ (force : Bool) (w h x1 y1 x2 y2 : Int) (d : DetectionResult),
      ¬ (min w x2 ≤ max 0 x1 ∨ min h y2 ≤ max 0 y1) →
      processRegion force w h x1 y1 x2 y2 (some d) = some d) := by
  have hskip : ∀ (force : Bool) (w h x1 y1 x2 y2 : Int) (analysis : Option DetectionResult),
      (min w x2 ≤ max 0 x1 ∨ min h y2 ≤ max 0 y1) →
      processRegion force w h x1 y1 x2 y2 analysis = none := by
    intro force w h x1 y1 x2 y2 analysis hdeg
    simp only [processRegion, clampBbox]
    rw [if_pos hdeg]
  refine ⟨hskip, ?_, ?_, ?_, ?_⟩
  · intro force w h pre post r hdeg
    unfold detect_with_fixed_bboxes
    rw [List.filterMap_append, List.filterMap_append, List.filterMap_cons]
    rw [hskip force w h r.x1 r.y1 r.x2 r.y2 r.analysis hdeg]
  · intro w h x1 y1 x2 y2 hdeg
    simp only [processRegion, clampBbox]
    rw [if_neg hdeg]
    simp
  · intro w h x1 y1 x2 y2
    simp only [processRegion, clampBbox]
    by_cases hdeg : (min w x2 ≤ max 0 x1 ∨ min h y2 ≤ max 0 y1)
    · rw [if_pos hdeg]
    · rw [if_neg hdeg]
      simp
  · intro force w h x1 y1 x2 y2 d hdeg
    simp only [processRegion, clampBbox]
    rw [if_neg hdeg]

/-- Witness for the amended C5 behavior: a degenerate region is dropped from
the detection list even under forced detection, and a positive-area region
with no analysis result yields the forced baseline. -/
theorem bbox_degenerate_region_amended_witness :
    ((min (100 : Int) 50 ≤ max 0 50 ∨ min (100 : Int) 50 ≤ max 0 50)
      ∧ detect_with_fixed_bboxes true 100 100 [⟨50, 50, 50, 50, none⟩] = [])
    ∧ (¬ (min (100 : Int) 20 ≤ max 0 10 ∨ min (100 : Int) 20 ≤ max 0 10)
      ∧ processRegion true 100 100 10 10 20 20 none
          = some { confidence := 1, bbox := clampBbox 100 100 10 10 20 20,
                   class_name := "region", laser_status := "normal" }) := by
  constructor
  · refine ⟨by decide, ?_⟩
    have := bbox_degenerate_region_amended.2.1 true 100 100 ([] : List RegionReq) []
      ⟨50, 50, 50, 50, none⟩ (by decide)
    simpa [detect_with_fixed_bboxes] using this
  · exact ⟨by decide, bbox_degenerate_region_amended.2.2.1 100 100 10 10 20 20 (by decide)⟩

/-- C4 refuted on the code (the claim matches the configuration's documented
design, the detector does not): `brightness_threshold_ratio` and
`brightness_active_ratio` are not fields of `DetectionConfig` and are never
assigned anywhere in the repository, so under every configuration the
repository can build (modelled by `defaultDetectionCfg`, whose dynamic
attribute set is empty) the brightness branch of `_analyze_roi` raises
`AttributeError` and the region yields no brightness classification; moreover
even with the attribute supplied dynamically the top and middle thresholds
are the same single product `bottom * ratio`, and the per-region per-section
table `brightness_threshold_ratios` never influences the outcome. -/
theorem brightness_branch_reads_missing_attrs :
    detectionGetAttr defaultDetectionCfg "brightness_threshold_ratio" = none
    ∧ detectionGetAttr defaultDetectionCfg "brightness_active_ratio" = none
    ∧ (∀ (topF midF : ℚ → ℚ) (bottom mb : ℚ),
        analyzeRoiBrightness defaultDetectionCfg topF midF bottom mb = none)
    ∧ (∀ (cfg : DetectionCfg) (topF midF : ℚ → ℚ) (bottom mb : ℚ),
        (analyzeRoiBrightness cfg topF midF bottom mb).map (fun out => out.1)
          = (analyzeRoiBrightness cfg topF midF bottom mb).map (fun out => out.2.1))
    ∧ (∀ (ratios ratios' : List (List ℚ)) (dyn : List (String × ℚ))
        (topF midF : ℚ → ℚ) (bottom mb : ℚ),
        analyzeRoiBrightness ⟨ratios, dyn⟩ topF midF bottom mb
          = analyzeRoiBrightness ⟨ratios', dyn⟩ topF midF bottom mb) := by
  have h1 : detectionGetAttr defaultDetectionCfg "brightness_threshold_ratio" = none := by
    decide
  have h2 : detectionGetAttr defaultDetectionCfg "brightness_active_ratio" = none := by
    decide
  refine ⟨h1, h2, ?_, ?_, ?_⟩
  · intro topF midF bottom mb
    unfold analyzeRoiBrightness
    rw [h1]
  · intro cfg topF midF bottom mb
    unfold analyzeRoiBrightness
    cases detectionGetAttr cfg "brightness_threshold_ratio" with
    | none => rfl
    | some r =>
      cases detectionGetAttr cfg "brightness_active_ratio" with
      | none => rfl
      | some a => rfl
  · intro ratios ratios' dyn topF midF bottom mb
    rfl

/-- C3 evaluated at a failing input: the machine is active at t=0, inactive at
t=1200 (the inactive alert is sent successfully), and active again at t=1800.
The recovery attempt is made and the flag is cleared, but the alert carries
0 minutes rather than the roughly 30 minutes the machine was inactive,
because `run_single_cycle` appends the active entry (setting
`last_active_time` to the current instant) before the alert manager reads
`machine_history.get_inactive_duration()` (src/laser_monitor.py lines
1644-1657, then 231-234). -/
theorem recovery_alert_carries_zero_minutes :
    (runCycles ⟨true, ["machine_0"]⟩ 15 "machine_0" (initCycleState "machine_0")
      [⟨0, "active", false, false⟩, ⟨1200, "inactive", true, false⟩,
       ⟨1800, "active", false, true⟩]).2
      = [⟨0, "active", false, false, 0⟩,
         ⟨1200, "inactive", true, false, 0⟩,
         ⟨1800, "active", false, true, 0⟩]
    ∧ dget (runCycles ⟨true, ["machine_0"]⟩ 15 "machine_0" (initCycleState "machine_0")
        [⟨0, "active", false, false⟩, ⟨1200, "inactive", true, false⟩,
         ⟨1800, "active", false, true⟩]).1.1.alert_sent_for_current_inactive_period
        "machine_0" false = false := by
  constructor
  · simp +decide [runCycles, stepCycle, update_machine_status, send_active_alert,
      send_inactive_alert, should_send_alert, should_send_alert_for_active,
      MachineHistory.add_entry, MachineHistory.cleanup_old_entries,
      MachineHistory.get_inactive_duration, MachineHistory.is_inactive_too_long,
      initCycleState, AlertState.init, MachineHistory.empty, dget, dset, sevenDays]
  · simp +decide [runCycles, stepCycle, update_machine_status, send_active_alert,
      send_inactive_alert, should_send_alert, should_send_alert_for_active,
      MachineHistory.add_entry, MachineHistory.cleanup_old_entries,
      MachineHistory.get_inactive_duration, MachineHistory.is_inactive_too_long,
      initCycleState, AlertState.init, MachineHistory.empty, dget, dset, sevenDays]

lemma brightnessFactor_bounds (mb : ℚ) (hmb : 0 ≤ mb) :
    7/10 ≤ brightnessFactor mb ∧ brightnessFactor mb ≤ 13/10 := by
  unfold brightnessFactor
  have h0 : (0 : ℚ) ≤ min 1 (mb / 200) := le_min (by norm_num) (by positivity)
  have h1 : min (1 : ℚ) (mb / 200) ≤ 1 := min_le_left _ _
  constructor <;> nlinarith

lemma composite_base_bounds (x θ : ℚ) (hθ : 0 < θ) :
    1/2 ≤ 1/2 + min (1/2) (max 0 x / (2 * θ))
      ∧ 1/2 + min (1/2) (max 0 x / (2 * θ)) ≤ 1 := by
  have h0 : (0 : ℚ) ≤ max 0 x / (2 * θ) := div_nonneg (le_max_left _ _) (by positivity)
  have h2 : (0 : ℚ) ≤ min (1/2) (max 0 x / (2 * θ)) := le_min (by norm_num) h0
  have h3 : min ((1 : ℚ)/2) (max 0 x / (2 * θ)) ≤ 1/2 := min_le_left _ _
  constructor <;> linarith

lemma min_one_conf_bounds (v : ℚ) (hv : 1/10 ≤ v) :
    1/10 ≤ min 1 v ∧ min 1 v ≤ 1 :=
  ⟨le_min (by norm_num) hv, min_le_left _ _⟩

/-- C6: for every region input, the shared composite decision used by both
strategies (the brightness branch and the color/indicator branch instantiate
`compositeClassify` with their respective ratios and positive thresholds)
produces exactly one of the four composite classes and a confidence inside
`[0.1, 1]`; the forced baseline of `_detect_with_fixed_bboxes` is the one
exception and its confidence is pinned at 1. -/
theorem composite_classify_class_and_confidence (topRatio midRatio topThreshold midThreshold mb : ℚ)
    (htp : 0 < topThreshold) (hmp : 0 < midThreshold) (hmb : 0 ≤ mb) :
    ((compositeClassify topRatio midRatio topThreshold midThreshold mb).class_name = "machine_active"
      ∨ (compositeClassify topRatio midRatio topThreshold midThreshold mb).class_name = "machine_working_only"
      ∨ (compositeClassify topRatio midRatio topThreshold midThreshold mb).class_name = "machine_on_only"
      ∨ (compositeClassify topRatio midRatio topThreshold midThreshold mb).class_name = "machine_off")
    ∧ 1/10 ≤ (compositeClassify topRatio midRatio topThreshold midThreshold mb).confidence
    ∧ (compositeClassify topRatio midRatio topThreshold midThreshold mb).confidence ≤ 1
    ∧ (∀ (w h x1 y1 x2 y2 : Int) (d : DetectionResult),
        processRegion true w h x1 y1 x2 y2 none = some d → d.confidence = 1) := by
  have hbf := brightnessFactor_bounds mb hmb
  have hforced : ∀ (w h x1 y1 x2 y2 : Int) (d : DetectionResult),
      processRegion true w h x1 y1 x2 y2 none = some d → d.confidence = 1 := by
    intro w h x1 y1 x2 y2 d hd
    simp only [processRegion, clampBbox] at hd
    by_cases hdeg : (min w x2 ≤ max 0 x1 ∨ min h y2 ≤ max 0 y1)
    · rw [if_pos hdeg] at hd
      exact absurd hd (by simp)
    · rw [if_neg hdeg] at hd
      simp at hd
      rw [← hd]
  unfold compositeClassify
  by_cases ht : topThreshold ≤ topRatio <;> by_cases hm : midThreshold ≤ midRatio
  · rw [if_pos ⟨ht, hm⟩]
    have hb1 := composite_base_bounds (topRatio - topThreshold) topThreshold htp
    have hb2 := composite_base_bounds (midRatio - midThreshold) midThreshold hmp
    refine ⟨Or.inl rfl, ?_, ?_, hforced⟩
    · exact (min_one_conf_bounds _ (by nlinarith [hbf.1, hbf.2, hb1.1, hb1.2, hb2.1, hb2.2])).1
    · exact (min_one_conf_bounds _ (by nlinarith [hbf.1, hbf.2, hb1.1, hb1.2, hb2.1, hb2.2])).2
  · rw [if_neg (by tauto), if_pos ht]
    have hb1 := composite_base_bounds (topRatio - topThreshold) topThreshold htp
    refine ⟨Or.inr (Or.inl rfl), ?_, ?_, hforced⟩
    · exact (min_one_conf_bounds _ (by nlinarith [hbf.1, hbf.2, hb1.1, hb1.2])).1
    · exact (min_one_conf_bounds _ (by nlinarith [hbf.1, hbf.2, hb1.1, hb1.2])).2
  · rw [if_neg (by tauto), if_neg ht, if_pos hm]
    have hb2 := composite_base_bounds (midRatio - midThreshold) midThreshold hmp
    refine ⟨Or.inr (Or.inr (Or.inl rfl)), ?_, ?_, hforced⟩
    · exact (min_one_conf_bounds _ (by nlinarith [hbf.1, hbf.2, hb2.1, hb2.2])).1
    · exact (min_one_conf_bounds _ (by nlinarith [hbf.1, hbf.2, hb2.1, hb2.2])).2
  · rw [if_neg (by tauto), if_neg ht, if_neg hm]
    refine ⟨Or.inr (Or.inr (Or.inr rfl)), ?_, ?_, hforced⟩
    · exact (min_one_conf_bounds _ (le_max_left _ _)).1
    · exact (min_one_conf_bounds _ (le_max_left _ _)).2

/-- Witness for C6 at the spec's own scenario (section 8): top ratio 0.6
against threshold 0.5, middle ratio 0.6 against threshold 0.53, mean
brightness 200. -/
theorem composite_classify_witness :
    ((0 : ℚ) < 1/2 ∧ (0 : ℚ) < 53/100 ∧ (0 : ℚ) ≤ 200)
    ∧ ((compositeClassify (6/10) (6/10) (1/2) (53/100) 200).class_name = "machine_active"
        ∨ (compositeClassify (6/10) (6/10) (1/2) (53/100) 200).class_name = "machine_working_only"
        ∨ (compositeClassify (6/10) (6/10) (1/2) (53/100) 200).class_name = "machine_on_only"
        ∨ (compositeClassify (6/10) (6/10) (1/2) (53/100) 200).class_name = "machine_off")
    ∧ 1/10 ≤ (compositeClassify (6/10) (6/10) (1/2) (53/100) 200).confidence
    ∧ (compositeClassify (6/10) (6/10) (1/2) (53/100) 200).confidence ≤ 1 :=
  ⟨⟨by norm_num, by norm_num, by norm_num⟩,
   (composite_classify_class_and_confidence (6/10) (6/10) (1/2) (53/100) 200
      (by norm_num) (by norm_num) (by norm_num)).1,
   (composite_classify_class_and_confidence (6/10) (6/10) (1/2) (53/100) 200
      (by norm_num) (by norm_num) (by norm_num)).2.1,
   (composite_classify_class_and_confidence (6/10) (6/10) (1/2) (53/100) 200
      (by norm_num) (by norm_num) (by norm_num)).2.2.1⟩

lemma applyAdds_concat (h : MachineHistory) (us : List AddRequest) (u : AddRequest) :
    applyAdds h (us ++ [u])
      = (applyAdds h us).add_entry u.time u.status u.class_name u.confidence u.details := by
  unfold applyAdds
  rw [List.foldl_append]
  rfl

lemma add_entry_last_active (h : MachineHistory) (now : Int) (status class_name : String)
    (confidence : ℚ) (details : String) :
    (h.add_entry now status class_name confidence details).last_active_time
      = if status = "active" then some now else h.last_active_time := by
  unfold MachineHistory.add_entry MachineHistory.cleanup_old_entries
  split <;> rfl

lemma add_entry_last_inactive (h : MachineHistory) (now : Int) (status class_name : String)
    (confidence : ℚ) (details : String) :
    (h.add_entry now status class_name confidence details).last_inactive_time
      = if status = "active" then h.last_inactive_time else some now := by
  unfold MachineHistory.add_entry MachineHistory.cleanup_old_entries
  split <;> rfl

lemma lastActiveReqTime_concat (us : List AddRequest) (u : AddRequest) :
    lastActiveReqTime (us ++ [u])
      = if u.status = "active" then some u.time else lastActiveReqTime us := by
  unfold lastActiveReqTime
  rw [List.filter_append]
  by_cases h : u.status = "active"
  · simp [h]
  · simp [h]

lemma lastNonActiveReqTime_concat (us : List AddRequest) (u : AddRequest) :
    lastNonActiveReqTime (us ++ [u])
      = if u.status = "active" then lastNonActiveReqTime us else some u.time := by
  unfold lastNonActiveReqTime
  rw [List.filter_append]
  by_cases h : u.status = "active"
  · simp [h]
  · simp [h]

lemma applyAdds_last_active (h : MachineHistory) (us : List AddRequest) :
    (applyAdds h us).last_active_time
      = match lastActiveReqTime us with
        | some t => some t
        | none => h.last_active_time := by
  induction us using List.reverseRecOn with
  | nil => rfl
  | append_singleton us u ih =>
    rw [applyAdds_concat, add_entry_last_active, lastActiveReqTime_concat, ih]
    by_cases hs : u.status = "active"
    · simp [hs]
    · simp [hs]

lemma applyAdds_last_inactive (h : MachineHistory) (us : List AddRequest) :
    (applyAdds h us).last_inactive_time
      = match lastNonActiveReqTime us with
        | some t => some t
        | none => h.last_inactive_time := by
  induction us using List.reverseRecOn with
  | nil => rfl
  | append_singleton us u ih =>
    rw [applyAdds_concat, add_entry_last_inactive, lastNonActiveReqTime_concat, ih]
    by_cases hs : u.status = "active"
    · simp [hs]
    · simp [hs]

lemma add_entry_entry_mem (h : MachineHistory) (now : Int) (status class_name : String)
    (confidence : ℚ) (details : String) (e : MachineStatusEntry)
    (he : e ∈ (h.add_entry now status class_name confidence details).entries) :
    (e ∈ h.entries ∨ e.timestamp = now) ∧ now - sevenDays ≤ e.timestamp := by
  unfold MachineHistory.add_entry MachineHistory.cleanup_old_entries at he
  by_cases hs : status = "active"
  · simp [hs] at he
    rcases he with ⟨hmem, hcut⟩ | ⟨heq, hcut⟩
    · exact ⟨Or.inl hmem, by omega⟩
    · refine ⟨Or.inr ?_, by omega⟩
      rw [heq]
  · simp [hs] at he
    rcases he with ⟨hmem, hcut⟩ | ⟨heq, hcut⟩
    · exact ⟨Or.inl hmem, by omega⟩
    · refine ⟨Or.inr ?_, by omega⟩
      rw [heq]

lemma applyAdds_entry_times (m : String) (us : List AddRequest) (e : MachineStatusEntry)
    (he : e ∈ (applyAdds (MachineHistory.empty m) us).entries) :
    e.timestamp ∈ us.map AddRequest.time := by
  induction us using List.reverseRecOn with
  | nil => exact absurd he (by simp [applyAdds, MachineHistory.empty])
  | append_singleton us u ih =>
    rw [applyAdds_concat] at he
    rcases (add_entry_entry_mem _ _ _ _ _ _ _ he).1 with hmem | htime
    · have := ih hmem
      simp only [List.map_append, List.mem_append]
      exact Or.inl this
    · simp only [List.map_append, List.mem_append]
      exact Or.inr (by simp [htime])

/-- C8: appends with nondecreasing wall-clock timestamps keep every retained
entry within seven days of the newest entry's timestamp, and the
`last_active_time` / `last_inactive_time` markers always equal the timestamp
of the most recent append of the matching kind, untouched by pruning. -/
theorem history_retention_and_markers (m : String) (us : List AddRequest) (u : AddRequest)
    (htimes : ((us ++ [u]).map AddRequest.time).Chain' (· ≤ ·)) :
    (∀ e ∈ (applyAdds (MachineHistory.empty m) (us ++ [u])).entries,
      u.time - sevenDays ≤ e.timestamp ∧ e.timestamp ≤ u.time)
    ∧ (applyAdds (MachineHistory.empty m) (us ++ [u])).last_active_time
        = lastActiveReqTime (us ++ [u])
    ∧ (applyAdds (MachineHistory.empty m) (us ++ [u])).last_inactive_time
        = lastNonActiveReqTime (us ++ [u]) := by
  have hpair : ((us ++ [u]).map AddRequest.time).Pairwise (· ≤ ·) :=
    List.chain'_iff_pairwise.mp htimes
  have hbound : ∀ t ∈ us.map AddRequest.time, t ≤ u.time := by
    rw [List.map_append] at hpair
    intro t ht
    exact (List.pairwise_append.mp hpair).2.2 t ht u.time (by simp)
  refine ⟨?_, ?_, ?_⟩
  · intro e he
    rw [applyAdds_concat] at he
    have hmem := add_entry_entry_mem _ _ _ _ _ _ _ he
    refine ⟨hmem.2, ?_⟩
    rcases hmem.1 with hold | hnew
    · exact hbound e.timestamp (applyAdds_entry_times m us e hold)
    · rw [hnew]
  · rw [applyAdds_last_active]
    cases h : lastActiveReqTime (us ++ [u]) with
    | some t => rfl
    | none => rfl
  · rw [applyAdds_last_inactive]
    cases h : lastNonActiveReqTime (us ++ [u]) with
    | some t => rfl
    | none => rfl

/-- Witness for C8: three appends at times 0, 5 and `sevenDays + 6` - the
first entry falls out of the retention window, and the markers reflect the
latest active and latest inactive appends respectively. -/
theorem history_retention_and_markers_witness :
    ((([⟨0, "inactive", "machine_off", 0, ""⟩,
        ⟨5, "active", "machine_active", 1, ""⟩] ++
       [⟨sevenDays + 6, "inactive", "machine_off", 0, ""⟩]) : List AddRequest).map
        AddRequest.time).Chain' (· ≤ ·)
    ∧ (∀ e ∈ (applyAdds (MachineHistory.empty "machine_0")
        (([⟨0, "inactive", "machine_off", 0, ""⟩,
           ⟨5, "active", "machine_active", 1, ""⟩] ++
          [⟨sevenDays + 6, "inactive", "machine_off", 0, ""⟩]) : List AddRequest)).entries,
        (sevenDays + 6 : Int) - sevenDays ≤ e.timestamp ∧ e.timestamp ≤ sevenDays + 6) := by
  have h := history_retention_and_markers "machine_0"
    ([⟨0, "inactive", "machine_off", 0, ""⟩,
      ⟨5, "active", "machine_active", 1, ""⟩] : List AddRequest)
    ⟨sevenDays + 6, "inactive", "machine_off", 0, ""⟩
    (by simp [sevenDays])
  exact ⟨by simp [sevenDays], h.1⟩

lemma insertByTs_length (e : UEntry) (l : List UEntry) :
    (insertByTs e l).length = l.length + 1 := by
  induction l with
  | nil => rfl
  | cons x xs ih =>
    unfold insertByTs
    by_cases h : e.ts < x.ts
    · simp [h]
    · simp [h, ih]

lemma sortByTs_foldl_length (l : List UEntry) :
    ∀ acc : List UEntry,
      (l.foldl (fun acc e => insertByTs e acc) acc).length = acc.length + l.length := by
  induction l with
  | nil => intro acc; simp
  | cons x xs ih =>
    intro acc
    simp only [List.foldl_cons]
    rw [ih, insertByTs_length]
    simp only [List.length_cons]
    omega

lemma sortByTs_length (l : List UEntry) : (sortByTs l).length = l.length := by
  unfold sortByTs
  rw [sortByTs_foldl_length]
  simp

lemma uptimeLoop_eq (xs : List UEntry) :
    ∀ (p : UEntry) (acc : ℚ),
      uptimeLoop acc p.status p.ts xs
        = (acc + pairActiveSeconds (p :: xs),
           (xs.getLast?.getD p).status, (xs.getLast?.getD p).ts) := by
  induction xs with
  | nil =>
    intro p acc
    simp [uptimeLoop, pairActiveSeconds]
  | cons x xs ih =>
    intro p acc
    rw [uptimeLoop, ih x]
    have hpair : pairActiveSeconds (p :: x :: xs)
        = (if p.status = "active" then ((x.ts - p.ts : Int) : ℚ) else 0)
            + pairActiveSeconds (x :: xs) := rfl
    rw [hpair, List.getLast?_cons]
    by_cases hp : p.status = "active"
    · simp [hp]
      ring
    · simp [hp]

lemma calculate_machine_uptime_cons (entries : List UEntry) (first : UEntry)
    (rest : List UEntry) (s e : Int) (hne : ¬ entries = [])
    (hs : sortByTs (entries.filter (fun x => s ≤ x.ts ∧ x.ts ≤ e)) = first :: rest) :
    calculate_machine_uptime entries s e
      = (if ((e - s : Int) : ℚ) = 0 then 0
         else (if (uptimeLoop 0 first.status s (first :: rest)).2.1 = "active"
               then (uptimeLoop 0 first.status s (first :: rest)).1
                 + ((e - (uptimeLoop 0 first.status s (first :: rest)).2.2 : Int) : ℚ)
               else (uptimeLoop 0 first.status s (first :: rest)).1)
              / ((e - s : Int) : ℚ) * 100) := by
  unfold calculate_machine_uptime
  rw [if_neg hne]
  simp only [hs]

/-- C7: `calculate_machine_uptime` returns 0 for an empty entry list, for a
window containing no entry, and for a zero-length window; it is a pure
function of its arguments; and on a nonempty in-window entry set over a
nonzero window it equals 100 times the decomposed active seconds (head
segment attributed to the first entry's own status, consecutive-pair segments
to the left entry's status, tail segment to the last entry's status) divided
by the window length. -/
theorem uptime_decomposition :
    (∀ s e : Int, calculate_machine_uptime [] s e = 0)
    ∧ (∀ (entries : List UEntry) (s e : Int),
        entries.filter (fun x => s ≤ x.ts ∧ x.ts ≤ e) = [] →
        calculate_machine_uptime entries s e = 0)
    ∧ (∀ (entries : List UEntry) (t : Int), calculate_machine_uptime entries t t = 0)
    ∧ (∀ (entries : List UEntry) (s e : Int),
        calculate_machine_uptime entries s e = calculate_machine_uptime entries s e)
    ∧ (∀ (entries : List UEntry) (s e : Int),
        ¬ entries = [] →
        ¬ entries.filter (fun x => s ≤ x.ts ∧ x.ts ≤ e) = [] →
        ¬ ((e - s : Int) : ℚ) = 0 →
        calculate_machine_uptime entries s e
          = specActiveSeconds (sortByTs (entries.filter (fun x => s ≤ x.ts ∧ x.ts ≤ e))) s e
              / ((e - s : Int) : ℚ) * 100) := by
  refine ⟨?_, ?_, ?_, ?_, ?_⟩
  · intro s e
    rfl
  · intro entries s e hf
    unfold calculate_machine_uptime
    by_cases hne : entries = []
    · simp [hne]
    · rw [if_neg hne]
      simp only [hf]
      rfl
  · intro entries t
    by_cases hne : entries = []
    · simp [hne]
      rfl
    · cases hs : sortByTs (entries.filter (fun x => t ≤ x.ts ∧ x.ts ≤ t)) with
      | nil =>
        unfold calculate_machine_uptime
        rw [if_neg hne]
        simp only [hs]
      | cons first rest =>
        rw [calculate_machine_uptime_cons entries first rest t t hne hs]
        rw [if_pos (by simp)]
  · intro entries s e
    rfl
  · intro entries s e hne hf hnz
    cases hs : sortByTs (entries.filter (fun x => s ≤ x.ts ∧ x.ts ≤ e)) with
    | nil =>
      exfalso
      apply hf
      have hlen := sortByTs_length (entries.filter (fun x => s ≤ x.ts ∧ x.ts ≤ e))
      rw [hs] at hlen
      exact List.length_eq_zero.mp hlen.symm
    | cons first rest =>
      rw [calculate_machine_uptime_cons entries first rest s e hne hs]
      rw [if_neg hnz]
      have hloop : uptimeLoop 0 first.status s (first :: rest)
          = ((if first.status = "active" then 0 + ((first.ts - s : Int) : ℚ) else 0)
              + pairActiveSeconds (first :: rest),
             (rest.getLast?.getD first).status, (rest.getLast?.getD first).ts) := by
        rw [uptimeLoop]
        exact uptimeLoop_eq rest first _
      rw [hloop]
      unfold specActiveSeconds
      simp only [List.getLast?_cons]
      by_cases hl : (rest.getLast?.getD first).status = "active"
      · simp [hl]
      · simp [hl]

/-- Witness for C7 at the spec's section 8 scenario: entries active at t0 and
inactive at t0+20min over the window [t0, t0+30min]. -/
theorem uptime_decomposition_witness :
    (¬ ([⟨0, "active"⟩, ⟨1200, "inactive"⟩] : List UEntry) = []
      ∧ ¬ ([⟨0, "active"⟩, ⟨1200, "inactive"⟩] : List UEntry).filter
            (fun x => 0 ≤ x.ts ∧ x.ts ≤ 1800) = []
      ∧ ¬ ((1800 - 0 : Int) : ℚ) = 0)
    ∧ calculate_machine_uptime [⟨0, "active"⟩, ⟨1200, "inactive"⟩] 0 1800
        = specActiveSeconds
            (sortByTs (([⟨0, "active"⟩, ⟨1200, "inactive"⟩] : List UEntry).filter
              (fun x => 0 ≤ x.ts ∧ x.ts ≤ 1800))) 0 1800 / ((1800 - 0 : Int) : ℚ) * 100 := by
  constructor
  · exact ⟨by simp, by simp +decide, by norm_num⟩
  · exact uptime_decomposition.2.2.2.2 [⟨0, "active"⟩, ⟨1200, "inactive"⟩] 0 1800
      (by simp) (by simp +decide) (by norm_num)

/-- The per-machine episode flag of a cycle state. -/
def cycleFlag (s : AlertState × MachineHistory) (m : String) : Bool :=
  dget s.1.alert_sent_for_current_inactive_period m false

/-- Every time recorded in the option is at most `B`. -/
def optBounded (o : Option Int) (B : Int) : Prop :=
  ∀ t : Int, o = some t → t ≤ B

/-- Inductive invariant of the per-machine cycle loop: the flag is only set
while the last observed status is inactive, the flag mirrors whether the
current (suffix) inactive run already contains a successful send, and the
history's markers never exceed the bound `B` (the last processed cycle
time). -/
def CycleInv (m : String) (s : AlertState × MachineHistory)
    (outs : List CycleOutput) (B : Int) : Prop :=
  (cycleFlag s m = true → dget s.1.last_machine_status m "" = "inactive")
  ∧ curRunSentCount outs = (if cycleFlag s m then 1 else 0)
  ∧ optBounded s.2.last_active_time B
  ∧ optBounded s.2.last_inactive_time B

lemma curRunSentCount_append_inactive (outs : List CycleOutput) (o : CycleOutput)
    (h : o.status = "inactive") :
    curRunSentCount (outs ++ [o])
      = curRunSentCount outs + (if o.inactiveSent then 1 else 0) := by
  unfold curRunSentCount countInactiveSent
  rw [List.reverse_append]
  simp only [List.reverse_singleton, List.singleton_append, List.takeWhile_cons, h]
  simp only [decide_True, List.filter_cons]
  by_cases hs : o.inactiveSent
  · simp [hs, Nat.add_comm]
  · simp [hs]

lemma curRunSentCount_append_other (outs : List CycleOutput) (o : CycleOutput)
    (h : ¬ o.status = "inactive") :
    curRunSentCount (outs ++ [o]) = 0 := by
  unfold curRunSentCount countInactiveSent
  rw [List.reverse_append]
  simp only [List.reverse_singleton, List.singleton_append, List.takeWhile_cons]
  simp [h]

lemma send_active_alert_frame (cfg : ChannelCfg) (st : AlertState) (m : String)
    (t ok : Bool) :
    (send_active_alert cfg st m t ok).2.last_machine_status = st.last_machine_status := by
  unfold send_active_alert
  by_cases h1 : (¬ t = true ∧ ¬ should_send_alert_for_active cfg st m = true)
  · rw [if_pos h1]
  · rw [if_neg h1]
    cases ok
    · simp
    · simp
      cases t
      · simp
      · simp

lemma update_status_parts (cfg : ChannelCfg) (st : AlertState) (m cur : String)
    (hist : MachineHistory) (now : Int) (aok : Bool) :
    dget (update_machine_status cfg st m cur hist now aok).state.last_machine_status m "" = cur
    ∧ dget (update_machine_status cfg st m cur hist now
        aok).state.alert_sent_for_current_inactive_period m false
      = (if dget st.last_machine_status m "" = "inactive" ∧ cur = "active" then false
         else dget st.alert_sent_for_current_inactive_period m false)
    ∧ (update_machine_status cfg st m cur hist now aok).activeAttempted
      = (decide (dget st.last_machine_status m "" = "inactive" ∧ cur = "active")
          && dget st.alert_sent_for_current_inactive_period m false) := by
  unfold update_machine_status
  by_cases htr : (dget st.last_machine_status m "" = "inactive" ∧ cur = "active")
  · rw [if_pos htr]
    by_cases hf : dget st.alert_sent_for_current_inactive_period m false
    · simp only [hf, if_pos, if_true]
      refine ⟨?_, ?_, ?_⟩
      · rw [send_active_alert_frame]
        exact dget_dset_self _ _ _ _
      · rw [dget_dset_self, if_pos htr]
      · simp [htr, hf]
    · simp only [hf, if_false, Bool.false_eq_true]
      refine ⟨?_, ?_, ?_⟩
      · exact dget_dset_self _ _ _ _
      · rw [dget_dset_self, if_pos htr]
      · simp [hf]
  · rw [if_neg htr]
    refine ⟨dget_dset_self _ _ _ _, ?_, ?_⟩
    · rw [if_neg htr]
    · simp [htr]

lemma send_inactive_parts (cfg : ChannelCfg) (st : AlertState) (m : String)
    (now : Int) (ok : Bool) :
    (send_inactive_alert cfg st m false now ok).1 = (should_send_alert cfg st m && ok)
    ∧ dget (send_inactive_alert cfg st m false now
        ok).2.alert_sent_for_current_inactive_period m false
      = (dget st.alert_sent_for_current_inactive_period m false
          || (should_send_alert cfg st m && ok))
    ∧ (send_inactive_alert cfg st m false now ok).2.last_machine_status
        = st.last_machine_status := by
  unfold send_inactive_alert
  by_cases hs : should_send_alert cfg st m = true
  · rw [if_neg (by simp [hs])]
    cases ok
    · simp [hs]
    · simp [hs, dget_dset_self]
  · rw [if_pos (by simp [hs])]
    simp [Bool.eq_false_iff.mpr hs]

lemma should_send_alert_flag_false (cfg : ChannelCfg) (st : AlertState) (m : String)
    (hs : should_send_alert cfg st m = true) :
    dget st.alert_sent_for_current_inactive_period m false = false := by
  unfold should_send_alert at hs
  by_cases h1 : cfg.enabled = true
  · by_cases h2 : m ∈ cfg.alert_machines
    · by_cases h3 : dget st.alert_sent_for_current_inactive_period m false = true
      · rw [if_neg (by simp [h1]), if_neg (by simp [h2]), if_pos h3] at hs
        exact absurd hs (by simp)
      · simpa using h3
    · rw [if_neg (by simp [h1]), if_pos (by simp [h2])] at hs
      exact absurd hs (by simp)
  · rw [if_pos (by simp [h1])] at hs
    exact absurd hs (by simp)

lemma add_active_not_too_long (h : MachineHistory) (now θ : Int) (hθ : 0 ≤ θ)
    (hli : ∀ t : Int, h.last_inactive_time = some t → t < now)
    (cn : String) (conf : ℚ) (det : String) :
    (h.add_entry now "active" cn conf det).is_inactive_too_long now θ = false := by
  unfold MachineHistory.is_inactive_too_long MachineHistory.get_inactive_duration
  rw [add_entry_last_active, add_entry_last_inactive]
  simp only [if_pos rfl]
  cases hcase : h.last_inactive_time with
  | none => exact decide_eq_false (by omega)
  | some li =>
    have hlt : li < now := hli li hcase
    simp only [if_true, if_pos hlt]
    exact decide_eq_false (by omega)

lemma stepCycle_out (cfg : ChannelCfg) (θ : Int) (m : String)
    (s : AlertState × MachineHistory) (c : CycleInput) :
    (stepCycle cfg θ m s c).2.status = c.status
    ∧ (stepCycle cfg θ m s c).2.time = c.time
    ∧ (stepCycle cfg θ m s c).1.2 = s.2.add_entry c.time c.status "" 0 ""
    ∧ (stepCycle cfg θ m s c).2.activeAttempted
        = (update_machine_status cfg s.1 m c.status
            (s.2.add_entry c.time c.status "" 0 "") c.time c.activeOk).activeAttempted :=
  ⟨rfl, rfl, rfl, rfl⟩

lemma stepCycle_sent_flag (cfg : ChannelCfg) (θ : Int) (m : String)
    (s : AlertState × MachineHistory) (c : CycleInput) :
    (stepCycle cfg θ m s c).2.inactiveSent
      = (if ((s.2.add_entry c.time c.status "" 0 "").is_inactive_too_long c.time θ = true
              ∧ cfg.enabled = true ∧ m ∈ cfg.alert_machines)
         then should_send_alert cfg (update_machine_status cfg s.1 m c.status
                (s.2.add_entry c.time c.status "" 0 "") c.time c.activeOk).state m
              && c.sendOk
         else false)
    ∧ cycleFlag (stepCycle cfg θ m s c).1 m
      = (dget (update_machine_status cfg s.1 m c.status
            (s.2.add_entry c.time c.status "" 0 "") c.time
            c.activeOk).state.alert_sent_for_current_inactive_period m false
          || (stepCycle cfg θ m s c).2.inactiveSent)
    ∧ (stepCycle cfg θ m s c).1.1.last_machine_status
        = (update_machine_status cfg s.1 m c.status
            (s.2.add_entry c.time c.status "" 0 "") c.time
            c.activeOk).state.last_machine_status := by
  by_cases hc : ((s.2.add_entry c.time c.status "" 0 "").is_inactive_too_long c.time θ = true
      ∧ cfg.enabled = true ∧ m ∈ cfg.alert_machines)
  · have hsent : (stepCycle cfg θ m s c).2.inactiveSent
        = (should_send_alert cfg (update_machine_status cfg s.1 m c.status
            (s.2.add_entry c.time c.status "" 0 "") c.time c.activeOk).state m
          && c.sendOk) := by
      show (if ((s.2.add_entry c.time c.status "" 0 "").is_inactive_too_long c.time θ = true
          ∧ cfg.enabled = true ∧ m ∈ cfg.alert_machines)
        then send_inactive_alert cfg (update_machine_status cfg s.1 m c.status
              (s.2.add_entry c.time c.status "" 0 "") c.time c.activeOk).state m false
              c.time c.sendOk
        else (false, (update_machine_status cfg s.1 m c.status
              (s.2.add_entry c.time c.status "" 0 "") c.time c.activeOk).state)).1 = _
      rw [if_pos hc]
      exact (send_inactive_parts _ _ _ _ _).1
    refine ⟨by rw [hsent, if_pos hc], ?_, ?_⟩
    · show dget (if ((s.2.add_entry c.time c.status "" 0 "").is_inactive_too_long c.time θ = true
          ∧ cfg.enabled = true ∧ m ∈ cfg.alert_machines)
        then send_inactive_alert cfg (update_machine_status cfg s.1 m c.status
              (s.2.add_entry c.time c.status "" 0 "") c.time c.activeOk).state m false
              c.time c.sendOk
        else (false, (update_machine_status cfg s.1 m c.status
              (s.2.add_entry c.time c.status "" 0 "") c.time
              c.activeOk).state)).2.alert_sent_for_current_inactive_period m false = _
      rw [if_pos hc, hsent]
      exact (send_inactive_parts _ _ _ _ _).2.1
    · show (if ((s.2.add_entry c.time c.status "" 0 "").is_inactive_too_long c.time θ = true
          ∧ cfg.enabled = true ∧ m ∈ cfg.alert_machines)
        then send_inactive_alert cfg (update_machine_status cfg s.1 m c.status
              (s.2.add_entry c.time c.status "" 0 "") c.time c.activeOk).state m false
              c.time c.sendOk
        else (false, (update_machine_status cfg s.1 m c.status
              (s.2.add_entry c.time c.status "" 0 "") c.time
              c.activeOk).state)).2.last_machine_status = _
      rw [if_pos hc]
      exact (send_inactive_parts _ _ _ _ _).2.2
  · have hsent : (stepCycle cfg θ m s c).2.inactiveSent = false := by
      show (if ((s.2.add_entry c.time c.status "" 0 "").is_inactive_too_long c.time θ = true
          ∧ cfg.enabled = true ∧ m ∈ cfg.alert_machines)
        then send_inactive_alert cfg (update_machine_status cfg s.1 m c.status
              (s.2.add_entry c.time c.status "" 0 "") c.time c.activeOk).state m false
              c.time c.sendOk
        else (false, (update_machine_status cfg s.1 m c.status
              (s.2.add_entry c.time c.status "" 0 "") c.time c.activeOk).state)).1 = _
      rw [if_neg hc]
    refine ⟨by rw [hsent, if_neg hc], ?_, ?_⟩
    · show dget (if ((s.2.add_entry c.time c.status "" 0 "").is_inactive_too_long c.time θ = true
          ∧ cfg.enabled = true ∧ m ∈ cfg.alert_machines)
        then send_inactive_alert cfg (update_machine_status cfg s.1 m c.status
              (s.2.add_entry c.time c.status "" 0 "") c.time c.activeOk).state m false
              c.time c.sendOk
        else (false, (update_machine_status cfg s.1 m c.status
              (s.2.add_entry c.time c.status "" 0 "") c.time
              c.activeOk).state)).2.alert_sent_for_current_inactive_period m false = _
      rw [if_neg hc, hsent]
      simp
    · show (if ((s.2.add_entry c.time c.status "" 0 "").is_inactive_too_long c.time θ = true
          ∧ cfg.enabled = true ∧ m ∈ cfg.alert_machines)
        then send_inactive_alert cfg (update_machine_status cfg s.1 m c.status
              (s.2.add_entry c.time c.status "" 0 "") c.time c.activeOk).state m false
              c.time c.sendOk
        else (false, (update_machine_status cfg s.1 m c.status
              (s.2.add_entry c.time c.status "" 0 "") c.time
              c.activeOk).state)).2.last_machine_status = _
      rw [if_neg hc]

lemma stepCycle_inv (cfg : ChannelCfg) (θ : Int) (m : String)
    (s : AlertState × MachineHistory) (outs : List CycleOutput) (B : Int)
    (c : CycleInput) (hInv : CycleInv m s outs B) (hB : B < c.time) (hθ : 0 ≤ θ)
    (hst : c.status = "active" ∨ c.status = "inactive") :
    CycleInv m (stepCycle cfg θ m s c).1 (outs ++ [(stepCycle cfg θ m s c).2]) c.time := by
  obtain ⟨hA2, hA3, hLa, hLi⟩ := hInv
  have hout := stepCycle_out cfg θ m s c
  have hsf := stepCycle_sent_flag cfg θ m s c
  have hupd := update_status_parts cfg s.1 m c.status
    (s.2.add_entry c.time c.status "" 0 "") c.time c.activeOk
  have hla' : optBounded (stepCycle cfg θ m s c).1.2.last_active_time c.time := by
    rw [hout.2.2.1, add_entry_last_active]
    by_cases hsa : c.status = "active"
    · rw [if_pos hsa]
      intro t ht
      cases ht
      omega
    · rw [if_neg hsa]
      intro t ht
      exact le_of_lt (lt_of_le_of_lt (hLa t ht) hB)
  have hli' : optBounded (stepCycle cfg θ m s c).1.2.last_inactive_time c.time := by
    rw [hout.2.2.1, add_entry_last_inactive]
    by_cases hsa : c.status = "active"
    · rw [if_pos hsa]
      intro t ht
      exact le_of_lt (lt_of_le_of_lt (hLi t ht) hB)
    · rw [if_neg hsa]
      intro t ht
      cases ht
      omega
  have hlms : dget (stepCycle cfg θ m s c).1.1.last_machine_status m "" = c.status := by
    rw [hsf.2.2]
    exact hupd.1
  rcases hst with hsa | hsi
  · -- an active cycle: the history read reports zero inactive duration, so no
    -- inactive send is attempted, and the flag ends the cycle cleared
    have hnl : (s.2.add_entry c.time c.status "" 0 "").is_inactive_too_long c.time θ = false := by
      rw [hsa]
      exact add_active_not_too_long s.2 c.time θ hθ
        (fun t ht => lt_of_le_of_lt (hLi t ht) hB) "" 0 ""
    have hnc : ¬ ((s.2.add_entry c.time c.status "" 0 "").is_inactive_too_long c.time θ = true
        ∧ cfg.enabled = true ∧ m ∈ cfg.alert_machines) := by
      intro hcontra
      rw [hnl] at hcontra
      exact absurd hcontra.1 (by simp)
    have hsent : (stepCycle cfg θ m s c).2.inactiveSent = false := by
      rw [hsf.1, if_neg hnc]
    have hflagu : dget (update_machine_status cfg s.1 m c.status
        (s.2.add_entry c.time c.status "" 0 "") c.time
        c.activeOk).state.alert_sent_for_current_inactive_period m false = false := by
      rw [hupd.2.1]
      by_cases htr : (dget s.1.last_machine_status m "" = "inactive" ∧ c.status = "active")
      · rw [if_pos htr]
      · rw [if_neg htr]
        cases hflag : dget s.1.alert_sent_for_current_inactive_period m false with
        | false => rfl
        | true => exact absurd ⟨hA2 hflag, hsa⟩ htr
    have hflag' : cycleFlag (stepCycle cfg θ m s c).1 m = false := by
      rw [hsf.2.1, hsent, hflagu]
      rfl
    refine ⟨?_, ?_, hla', hli'⟩
    · intro hcontra
      rw [hflag'] at hcontra
      exact absurd hcontra (by simp)
    · rw [curRunSentCount_append_other outs _ (by rw [hout.1, hsa]; simp), hflag']
      rfl
  · -- an inactive cycle: no transition handling fires; the flag accumulates a
    -- successful send, and at most one can land per run
    have huflag : dget (update_machine_status cfg s.1 m c.status
        (s.2.add_entry c.time c.status "" 0 "") c.time
        c.activeOk).state.alert_sent_for_current_inactive_period m false
        = dget s.1.alert_sent_for_current_inactive_period m false := by
      rw [hupd.2.1, if_neg]
      intro hcontra
      rw [hsi] at hcontra
      exact absurd hcontra.2 (by decide)
    have hcount := curRunSentCount_append_inactive outs ((stepCycle cfg θ m s c).2)
      (by rw [hout.1, hsi])
    have hflag' : cycleFlag (stepCycle cfg θ m s c).1 m
        = (dget s.1.alert_sent_for_current_inactive_period m false
            || (stepCycle cfg θ m s c).2.inactiveSent) := by
      rw [hsf.2.1, huflag]
    cases hflag : dget s.1.alert_sent_for_current_inactive_period m false with
    | true =>
      have hssfalse : should_send_alert cfg (update_machine_status cfg s.1 m c.status
          (s.2.add_entry c.time c.status "" 0 "") c.time c.activeOk).state m = false := by
        cases hss : should_send_alert cfg (update_machine_status cfg s.1 m c.status
            (s.2.add_entry c.time c.status "" 0 "") c.time c.activeOk).state m with
        | false => rfl
        | true =>
          have := should_send_alert_flag_false cfg _ m hss
          rw [huflag, hflag] at this
          exact absurd this (by simp)
      have hsent : (stepCycle cfg θ m s c).2.inactiveSent = false := by
        rw [hsf.1]
        by_cases hc : ((s.2.add_entry c.time c.status "" 0 "").is_inactive_too_long c.time θ = true
            ∧ cfg.enabled = true ∧ m ∈ cfg.alert_machines)
        · rw [if_pos hc, hssfalse]
          rfl
        · rw [if_neg hc]
      refine ⟨?_, ?_, hla', hli'⟩
      · intro _
        rw [hlms, hsi]
      · rw [hcount, hflag', hsent, hflag]
        unfold cycleFlag at hA3
        rw [hA3, hflag]
        simp
    | false =>
      refine ⟨?_, ?_, hla', hli'⟩
      · intro _
        rw [hlms, hsi]
      · rw [hcount, hflag', hflag]
        unfold cycleFlag at hA3
        rw [hA3, hflag]
        cases hsent : (stepCycle cfg θ m s c).2.inactiveSent with
        | false => simp
        | true => simp

/-- The time of the last cycle of the list, or `B` when there is none. -/
def lastTimeD (B : Int) : List CycleInput → Int
  | [] => B
  | c :: cs => lastTimeD c.time cs

lemma runCycles_nil (cfg : ChannelCfg) (θ : Int) (m : String)
    (s : AlertState × MachineHistory) : runCycles cfg θ m s [] = (s, []) := rfl

lemma runCycles_cons (cfg : ChannelCfg) (θ : Int) (m : String)
    (s : AlertState × MachineHistory) (c : CycleInput) (cs : List CycleInput) :
    runCycles cfg θ m s (c :: cs)
      = ((runCycles cfg θ m (stepCycle cfg θ m s c).1 cs).1,
         (stepCycle cfg θ m s c).2 :: (runCycles cfg θ m (stepCycle cfg θ m s c).1 cs).2) := rfl

lemma runCycles_append (cfg : ChannelCfg) (θ : Int) (m : String)
    (a : List CycleInput) :
    ∀ (s : AlertState × MachineHistory) (b : List CycleInput),
      runCycles cfg θ m s (a ++ b)
        = ((runCycles cfg θ m (runCycles cfg θ m s a).1 b).1,
           (runCycles cfg θ m s a).2 ++ (runCycles cfg θ m (runCycles cfg θ m s a).1 b).2) := by
  induction a with
  | nil =>
    intro s b
    rw [runCycles_nil]
    simp
  | cons c cs ih =>
    intro s b
    rw [List.cons_append, runCycles_cons, ih, runCycles_cons]
    simp

lemma runCycles_inv (cfg : ChannelCfg) (θ : Int) (m : String) (hθ : 0 ≤ θ) :
    ∀ (cs : List CycleInput) (s : AlertState × MachineHistory)
      (outs : List CycleOutput) (B : Int),
      CycleInv m s outs B →
      (∀ c : CycleInput, cs.head? = some c → B < c.time) →
      timesIncreasing cs →
      (∀ c ∈ cs, c.status = "active" ∨ c.status = "inactive") →
      CycleInv m (runCycles cfg θ m s cs).1 (outs ++ (runCycles cfg θ m s cs).2)
        (lastTimeD B cs) := by
  intro cs
  induction cs with
  | nil =>
    intro s outs B hInv _ _ _
    rw [runCycles_nil]
    simpa [lastTimeD] using hInv
  | cons c cs ih =>
    intro s outs B hInv hhead hinc hall
    have hBc : B < c.time := hhead c rfl
    have hstep := stepCycle_inv cfg θ m s outs B c hInv hBc hθ (hall c (by simp))
    have hchain := (List.chain'_cons'.mp hinc)
    have hrec := ih (stepCycle cfg θ m s c).1 (outs ++ [(stepCycle cfg θ m s c).2]) c.time
      hstep (fun d hd => hchain.1 d hd) hchain.2 (fun d hd => hall d (by simp [hd]))
    rw [runCycles_cons]
    have : outs ++ ((stepCycle cfg θ m s c).2
          :: (runCycles cfg θ m (stepCycle cfg θ m s c).1 cs).2)
        = (outs ++ [(stepCycle cfg θ m s c).2])
            ++ (runCycles cfg θ m (stepCycle cfg θ m s c).1 cs).2 := by
      simp
    rw [this]
    exact hrec

lemma runCycles_status_map (cfg : ChannelCfg) (θ : Int) (m : String) :
    ∀ (cs : List CycleInput) (s : AlertState × MachineHistory),
      (runCycles cfg θ m s cs).2.map CycleOutput.status = cs.map CycleInput.status := by
  intro cs
  induction cs with
  | nil => intro s; rfl
  | cons c cs ih =>
    intro s
    rw [runCycles_cons]
    simp only [List.map_cons, (stepCycle_out cfg θ m s c).1, ih]

lemma countInactiveSent_append (l1 l2 : List CycleOutput) :
    countInactiveSent (l1 ++ l2) = countInactiveSent l1 + countInactiveSent l2 := by
  unfold countInactiveSent
  rw [List.filter_append, List.length_append]

lemma countInactiveSent_reverse (l : List CycleOutput) :
    countInactiveSent l.reverse = countInactiveSent l := by
  unfold countInactiveSent
  rw [List.filter_reverse, List.length_reverse]

lemma takeWhile_append_of_all (p : CycleOutput → Bool) (l1 l2 : List CycleOutput)
    (h : ∀ x ∈ l1, p x = true) :
    List.takeWhile p (l1 ++ l2) = l1 ++ List.takeWhile p l2 := by
  induction l1 with
  | nil => simp
  | cons x xs ih =>
    rw [List.cons_append, List.takeWhile_cons, if_pos (h x (by simp))]
    rw [ih (fun y hy => h y (by simp [hy]))]
    rfl

lemma curRunSentCount_lower (oa ob : List CycleOutput)
    (h : ∀ o ∈ ob, o.status = "inactive") :
    countInactiveSent ob ≤ curRunSentCount (oa ++ ob) := by
  unfold curRunSentCount
  rw [List.reverse_append]
  rw [takeWhile_append_of_all _ ob.reverse oa.reverse
    (fun o ho => by simp [h o (List.mem_reverse.mp ho)])]
  rw [countInactiveSent_append, countInactiveSent_reverse]
  omega

lemma stepCycle_attempt_flag (cfg : ChannelCfg) (θ : Int) (m : String)
    (s : AlertState × MachineHistory) (c : CycleInput)
    (h : (stepCycle cfg θ m s c).2.activeAttempted = true) :
    dget s.1.alert_sent_for_current_inactive_period m false = true := by
  rw [(stepCycle_out cfg θ m s c).2.2.2,
    (update_status_parts cfg s.1 m c.status
      (s.2.add_entry c.time c.status "" 0 "") c.time c.activeOk).2.2] at h
  simp only [Bool.and_eq_true] at h
  exact h.2

lemma initCycleState_inv (m : String) (B : Int) :
    CycleInv m (initCycleState m) [] B := by
  refine ⟨?_, ?_, ?_, ?_⟩
  · intro h
    simp [cycleFlag, initCycleState, AlertState.init, dget] at h
  · rfl
  · intro t ht
    exact absurd ht (by simp [initCycleState, MachineHistory.empty])
  · intro t ht
    exact absurd ht (by simp [initCycleState, MachineHistory.empty])

/-- The bound one second before the first cycle's time (or zero). -/
def startBound (cs : List CycleInput) : Int :=
  match cs.head? with
  | some c => c.time - 1
  | none => 0

lemma startBound_head (cs : List CycleInput) (c : CycleInput) (h : cs.head? = some c) :
    startBound cs < c.time := by
  unfold startBound
  rw [h]
  show c.time - 1 < c.time
  omega

/-- C1: over any per-cycle status trace of one machine within one process
lifetime (strictly increasing cycle times, statuses drawn from
active/inactive), with the channel enabled and the machine allow-listed:
cycles are causal (the first conjunct splits a run at any point), every
contiguous all-inactive block of cycles carries at most one successfully
sent inactive alert (taking the block to be a maximal run specializes this),
and an active-again alert is attempted at a transition cycle only if the
maximal inactive run immediately preceding it contains exactly one
successfully sent inactive alert.  Both channels run this same logic. -/
theorem alert_at_most_once_per_inactive_run (cfg : ChannelCfg) (θ : Int) (m : String) :
    (∀ (s : AlertState × MachineHistory) (a b : List CycleInput),
      runCycles cfg θ m s (a ++ b)
        = ((runCycles cfg θ m (runCycles cfg θ m s a).1 b).1,
           (runCycles cfg θ m s a).2 ++ (runCycles cfg θ m (runCycles cfg θ m s a).1 b).2))
    ∧ (cfg.enabled = true → m ∈ cfg.alert_machines → 0 ≤ θ →
      ∀ (a b : List CycleInput),
        timesIncreasing (a ++ b) →
        (∀ c ∈ a ++ b, c.status = "active" ∨ c.status = "inactive") →
        (∀ c ∈ b, c.status = "inactive") →
        countInactiveSent (runCycles cfg θ m (runCycles cfg θ m (initCycleState m) a).1 b).2 ≤ 1)
    ∧ (cfg.enabled = true → m ∈ cfg.alert_machines → 0 ≤ θ →
      ∀ (a : List CycleInput) (c : CycleInput),
        timesIncreasing (a ++ [c]) →
        (∀ d ∈ a, d.status = "active" ∨ d.status = "inactive") →
        c.status = "active" →
        (stepCycle cfg θ m (runCycles cfg θ m (initCycleState m) a).1 c).2.activeAttempted = true →
        curRunSentCount (runCycles cfg θ m (initCycleState m) a).2 = 1) := by
  refine ⟨fun s a b => runCycles_append cfg θ m a s b, ?_, ?_⟩
  · intro _ _ hθ a b hinc hall hb
    have hInv := runCycles_inv cfg θ m hθ (a ++ b) (initCycleState m) []
      (startBound (a ++ b)) (initCycleState_inv m _)
      (fun c hc => startBound_head (a ++ b) c hc) hinc hall
    have happ := runCycles_append cfg θ m a (initCycleState m) b
    have hcount : curRunSentCount ((runCycles cfg θ m (initCycleState m) a).2
        ++ (runCycles cfg θ m (runCycles cfg θ m (initCycleState m) a).1 b).2) ≤ 1 := by
      have h3 := hInv.2.1
      rw [happ] at h3
      simp only [List.nil_append] at h3
      rw [h3]
      split <;> omega
    have hob : ∀ o ∈ (runCycles cfg θ m (runCycles cfg θ m (initCycleState m) a).1 b).2,
        o.status = "inactive" := by
      intro o ho
      have hmap := runCycles_status_map cfg θ m b (runCycles cfg θ m (initCycleState m) a).1
      have : o.status ∈ (runCycles cfg θ m (runCycles cfg θ m
          (initCycleState m) a).1 b).2.map CycleOutput.status :=
        List.mem_map_of_mem CycleOutput.status ho
      rw [hmap] at this
      obtain ⟨c, hc, hcs⟩ := List.mem_map.mp this
      rw [← hcs]
      exact hb c hc
    exact le_trans (curRunSentCount_lower _ _ hob) hcount
  · intro _ _ hθ a c hinc hall hca hatt
    have hflag := stepCycle_attempt_flag cfg θ m _ c hatt
    have hinca : timesIncreasing a := (List.chain'_append.mp hinc).1
    have hInv := runCycles_inv cfg θ m hθ a (initCycleState m) []
      (startBound a) (initCycleState_inv m _)
      (fun d hd => startBound_head a d hd) hinca hall
    have h3 := hInv.2.1
    simp only [List.nil_append] at h3
    rw [h3]
    unfold cycleFlag
    rw [hflag]
    rfl

/-- Witness for C1: with the channel enabled and machine_0 allow-listed, an
active cycle followed by two long-inactive cycles with succeeding transports
sends exactly one inactive alert during that run. -/
theorem alert_at_most_once_per_inactive_run_witness :
    (ChannelCfg.enabled ⟨true, ["machine_0"]⟩ = true
      ∧ "machine_0" ∈ ChannelCfg.alert_machines ⟨true, ["machine_0"]⟩
      ∧ (0 : Int) ≤ 15)
    ∧ countInactiveSent (runCycles ⟨true, ["machine_0"]⟩ 15 "machine_0"
        (runCycles ⟨true, ["machine_0"]⟩ 15 "machine_0" (initCycleState "machine_0")
          [⟨0, "active", false, false⟩]).1
        [⟨1200, "inactive", true, false⟩, ⟨2400, "inactive", true, false⟩]).2 ≤ 1 := by
  constructor
  · exact ⟨rfl, by decide, by norm_num⟩
  · exact (alert_at_most_once_per_inactive_run ⟨true, ["machine_0"]⟩ 15 "machine_0").2.1
      rfl (by decide) (by norm_num)
      [⟨0, "active", false, false⟩]
      [⟨1200, "inactive", true, false⟩, ⟨2400, "inactive", true, false⟩]
      (by simp [timesIncreasing]) (by decide) (by decide)
